import Mathlib

/-!
Shallow embedding of `src/streamlit_spotify_visualizer.py` (class
`SpotifyVisualizer` and the credential guard in `main`), for checking the
natural-language specification of the track data acquisition and shaping
layer against the code.

Remote payloads are modelled as typed values with `Option` for JSON null
and `Except String` for a raised transport exception (the string is the
exception message).  Each accessor operation returns its Python result
paired with the number of remote calls it performed, so that statements
about network traffic can be made.  The features and analysis objects are
passed through by the accessor without inspection, so they are modelled
opaquely as wrapped raw payloads.
-/

/-- One artist object, as used by the accessor (only the name is read). -/
structure Artist where
  name : String
deriving DecidableEq, Repr

/-- One track object from a playlist-tracks or search payload.
`preview_url` is `none` for JSON null; the empty string is also falsy in
the Python truthiness test. -/
structure TrackObj where
  name : String
  artists : List Artist
  id : String
  preview_url : Option String
  popularity : Nat
  duration_ms : Nat
deriving DecidableEq, Repr

/-- One playlist object from `current_user_playlists` (only name and id
are read). -/
structure PlaylistObj where
  name : String
  id : String
deriving DecidableEq, Repr

/-- The audio-features object; the accessor returns it without looking
inside, so it is opaque here. -/
structure FeaturesObj where
  raw : String
deriving DecidableEq, Repr

/-- The audio-analysis object; the accessor returns it without looking
inside, so it is opaque here. -/
structure AnalysisObj where
  raw : String
deriving DecidableEq, Repr

/-- The `current_user_playing_track` payload: `is_playing`, the `item`
track object and `progress_ms`. -/
structure PlayingObj where
  is_playing : Bool
  item : TrackObj
  progress_ms : Nat
deriving DecidableEq, Repr

/-- Python truthiness of a nullable string: null and the empty string are
falsy. -/
def truthy : Option String → Bool
  | none => false
  | some s => s ≠ ""

/-- The remote provider, one field per endpoint the accessor calls.
`Except.error m` models a raised exception with message `m`.  The items of
`playlist_tracks` and `search` are nullable track objects; `audio_features`
returns a list whose first element may be null. -/
structure Provider where
  current_user_playlists : Except String (List PlaylistObj)
  playlist_tracks : String → Except String (List (Option TrackObj))
  search : String → Nat → Except String (List (Option TrackObj))
  current_user_playing_track : Except String (Option PlayingObj)
  audio_features : String → Except String (List (Option FeaturesObj))
  audio_analysis : String → Except String AnalysisObj
deriving Inhabited

/-- Authorization mode of the live client: OAuth (full) or client
credentials (limited). -/
inductive AuthMode where
  | full
  | limited
deriving DecidableEq, Repr

/-- The `self.sp` client: its mode plus the remote provider it talks to. -/
structure Client where
  mode : AuthMode
  provider : Provider

/-- The row dict built for each kept track (lines 165-172 and 188-195 of
the source). -/
structure TrackRow where
  name : String
  artist : String
  id : String
  preview_url : Option String
  popularity : Nat
  duration_ms : Nat
deriving DecidableEq, Repr

/-- The row dict built for the currently playing track (lines 223-229). -/
structure PlayingRow where
  name : String
  artist : String
  id : String
  progress_ms : Nat
  duration_ms : Nat
deriving DecidableEq, Repr

/-- Builds a `TrackRow` from a track object: the artist names are joined
with a comma, as in the Python list comprehension. -/
def rowOfTrack (t : TrackObj) : TrackRow :=
  ⟨t.name, String.intercalate ", " (t.artists.map Artist.name), t.id,
   t.preview_url, t.popularity, t.duration_ms⟩

/-- `get_user_playlists` (lines 142-152): returns `[]` without a remote
call when no client is set; otherwise performs one remote call, maps the
items to `(name, id)` pairs, and returns `[]` if the call raised. -/
def get_user_playlists (sp : Option Client) : List (String × String) × Nat :=
  match sp with
  | none => ([], 0)
  | some c =>
    match c.provider.current_user_playlists with
    | Except.error _ => ([], 1)
    | Except.ok pls => (pls.map fun pl => (pl.name, pl.id), 1)

/-- The loop body of `get_playlist_tracks` (lines 162-172): null tracks
and tracks with a falsy preview URL are skipped, kept tracks are appended
in order. -/
def playlistLoop : List (Option TrackObj) → List TrackRow
  | [] => []
  | none :: rest => playlistLoop rest
  | some t :: rest =>
    if truthy t.preview_url then rowOfTrack t :: playlistLoop rest
    else playlistLoop rest

/-- `get_playlist_tracks` (lines 154-176). -/
def get_playlist_tracks (sp : Option Client) (playlist_id : String) :
    List TrackRow × Nat :=
  match sp with
  | none => ([], 0)
  | some c =>
    match c.provider.playlist_tracks playlist_id with
    | Except.error _ => ([], 1)
    | Except.ok items => (playlistLoop items, 1)

/-- The loop body of `search_tracks` (lines 186-195): unlike the playlist
loop, it subscripts the item directly, so a null item raises a TypeError
(modelled as `Except.error`), which the caller catches. -/
def searchLoop : List (Option TrackObj) → Except String (List TrackRow)
  | [] => Except.ok []
  | none :: _ => Except.error "TypeError: NoneType object is not subscriptable"
  | some t :: rest =>
    (searchLoop rest).map fun rows =>
      if truthy t.preview_url then rowOfTrack t :: rows else rows

/-- `search_tracks` (lines 178-199). -/
def search_tracks (sp : Option Client) (query : String) (limit : Nat) :
    List TrackRow × Nat :=
  match sp with
  | none => ([], 0)
  | some c =>
    match c.provider.search query limit with
    | Except.error _ => ([], 1)
    | Except.ok items =>
      match searchLoop items with
      | Except.error _ => ([], 1)
      | Except.ok rows => (rows, 1)

/-- Result of `get_track_features` (lines 201-212): the no-client early
return is a single `None` (line 204), while both normal and exception
paths return a pair (lines 209 and 212). -/
inductive FeaturesResult where
  | noClient
  | pair (features : Option FeaturesObj) (analysis : Option AnalysisObj)
deriving DecidableEq, Repr

/-- `get_track_features` (lines 201-212): fetches the features list and
takes element 0 (an empty list raises IndexError), then fetches the
analysis; any raised exception is caught and `(None, None)` returned. -/
def get_track_features (sp : Option Client) (track_id : String) :
    FeaturesResult × Nat :=
  match sp with
  | none => (FeaturesResult.noClient, 0)
  | some c =>
    match c.provider.audio_features track_id with
    | Except.error _ => (FeaturesResult.pair none none, 1)
    | Except.ok [] => (FeaturesResult.pair none none, 1)
    | Except.ok (f :: _) =>
      match c.provider.audio_analysis track_id with
      | Except.error _ => (FeaturesResult.pair none none, 2)
      | Except.ok a => (FeaturesResult.pair f (some a), 2)

/-- Tuple unpacking `features, analysis = ...` as done by the callers in
`main` (lines 516, 532, 563): succeeds on a pair, raises (`none`) on the
single `None` of the no-client path. -/
def unpack2 : FeaturesResult → Option (Option FeaturesObj × Option AnalysisObj)
  | FeaturesResult.noClient => none
  | FeaturesResult.pair f a => some (f, a)

/-- `get_currently_playing` (lines 214-232): `None` when no client, when
the call raised, when the provider reports nothing (null payload), or
when `is_playing` is false; otherwise the row dict. -/
def get_currently_playing (sp : Option Client) : Option PlayingRow × Nat :=
  match sp with
  | none => (none, 0)
  | some c =>
    match c.provider.current_user_playing_track with
    | Except.error _ => (none, 1)
    | Except.ok none => (none, 1)
    | Except.ok (some cur) =>
      if cur.is_playing then
        (some ⟨cur.item.name,
               String.intercalate ", " (cur.item.artists.map Artist.name),
               cur.item.id, cur.progress_ms, cur.item.duration_ms⟩, 1)
      else (none, 1)

/-- The mutable state of a `SpotifyVisualizer` object (lines 68-72). The
accessor methods read `sp` and assign none of the fields, so each is
embedded as a state-passing function returning the state unchanged. -/
structure Visualizer where
  sp : Option Client
  current_track : Option TrackRow
  audio_features : Option FeaturesObj
  audio_analysis : Option AnalysisObj

/-- `get_user_playlists` as a method on the object state: the body assigns
no attribute, so the state comes back unchanged. -/
def get_user_playlists_st (v : Visualizer) :
    Visualizer × (List (String × String) × Nat) :=
  (v, get_user_playlists v.sp)

/-- Starts-with test on character lists, used by the substring search. -/
def listStartsWith : List Char → List Char → Bool
  | _, [] => true
  | [], _ :: _ => false
  | a :: as, b :: bs => a == b && listStartsWith as bs

/-- Substring occurrence on character lists. -/
def listHasSub : List Char → List Char → Bool
  | [], needle => needle.isEmpty
  | h :: t, needle => listStartsWith (h :: t) needle || listHasSub t needle

/-- The Python membership test `needle in hay` on strings. -/
def strContains (hay needle : String) : Bool :=
  listHasSub hay.toList needle.toList

/-- The marker the fallback branch looks for in the exception message
(line 117 of the source). -/
def addrInUseMsg : String := "Address already in use"

/-- Provider side of `authenticate`: the outcome of the verification call
`self.sp.current_user()` (line 112) under the OAuth client (given client
id, secret and redirect target) and under the client-credentials client
(given client id and secret).  Constructing the spotipy objects themselves
performs no remote call. -/
structure AuthProvider where
  fullVerify : String → String → Option String → Except String Unit
  ccVerify : String → String → Except String Unit

/-- Outcome of one `authenticate` call: `success` with the mode of the
client left in `self.sp`, `failure` with the reported message (the method
returns False after `st.error`), or `fuelOut` when the recursion depth
bound of the embedding is exhausted (the Python recursion at line 119 has
no bound of its own). -/
inductive AuthOutcome where
  | success (mode : AuthMode)
  | failure (msg : String)
  | fuelOut
deriving DecidableEq, Repr

/-- Trace of one `authenticate` call: its outcome plus how many times the
OAuth-path verification and the client-credentials-path verification ran. -/
structure AuthTrace where
  outcome : AuthOutcome
  oauthAttempts : Nat
  ccAttempts : Nat
deriving DecidableEq, Repr

/-- `authenticate` (lines 74-122), with explicit recursion fuel.  The
client-credentials branch builds the limited client and verifies; the
OAuth branch builds the full client and verifies; a raised message
containing "Address already in use" triggers the recursive call with
`use_client_credentials=True` (line 119); any other raised message is
reported as failure.  `redirect_uri` is passed through to the provider;
the source performs no check on the credentials. -/
def authRun (p : AuthProvider) (client_id client_secret : String)
    (redirect_uri : Option String) (use_client_credentials : Bool) :
    Nat → AuthTrace
  | 0 => ⟨AuthOutcome.fuelOut, 0, 0⟩
  | fuel + 1 =>
    if use_client_credentials then
      match p.ccVerify client_id client_secret with
      | Except.ok _ => ⟨AuthOutcome.success AuthMode.limited, 0, 1⟩
      | Except.error e =>
        if strContains e addrInUseMsg then
          let t := authRun p client_id client_secret redirect_uri true fuel
          ⟨t.outcome, t.oauthAttempts, t.ccAttempts + 1⟩
        else ⟨AuthOutcome.failure e, 0, 1⟩
    else
      match p.fullVerify client_id client_secret redirect_uri with
      | Except.ok _ => ⟨AuthOutcome.success AuthMode.full, 1, 0⟩
      | Except.error e =>
        if strContains e addrInUseMsg then
          let t := authRun p client_id client_secret redirect_uri true fuel
          ⟨t.outcome, t.oauthAttempts + 1, t.ccAttempts⟩
        else ⟨AuthOutcome.failure e, 1, 0⟩

/-- What the Connect button handler in `main` does with the entered
credentials (lines 470-478): `authenticate` is invoked only when both are
truthy, otherwise an error message is shown and no call is made. -/
inductive ConnectAction where
  | callAuthenticate
  | showFillInError
deriving DecidableEq, Repr

/-- The credential guard of the Connect button (lines 470-478). -/
def connectHandler (client_id client_secret : String) : ConnectAction :=
  if client_id ≠ "" && client_secret ≠ "" then ConnectAction.callAuthenticate
  else ConnectAction.showFillInError

/-- The capability vocabulary of the specification (section 3). -/
inductive Capability where
  | readPlaylists
  | readCurrentlyPlaying
  | readPrivateLibrary
  | searchPublicCatalog
  | readTrackFeatures
deriving DecidableEq, Repr

/-- Modelled from the spec: the capability set each authorization mode
carries (section 3, AuthContext invariant).  The source has no capability
type; this definition only serves to phrase which capability a mode
lacks. -/
def capabilitiesOf : AuthMode → List Capability
  | AuthMode.full =>
    [Capability.readPlaylists, Capability.readCurrentlyPlaying,
     Capability.readPrivateLibrary, Capability.searchPublicCatalog,
     Capability.readTrackFeatures]
  | AuthMode.limited =>
    [Capability.searchPublicCatalog, Capability.readTrackFeatures]

/-- The filter the specification describes for playlist and search items:
drop null tracks and tracks with a falsy preview URL, keep the rest in
order. -/
def keepRow : Option TrackObj → Option TrackRow
  | none => none
  | some t => if truthy t.preview_url then some (rowOfTrack t) else none

/-- A sample features object. -/
def fvObj : FeaturesObj := ⟨"features payload"⟩

/-- A sample analysis object. -/
def aObj : AnalysisObj := ⟨"analysis payload"⟩

/-- A track with a preview URL. -/
def tGood : TrackObj :=
  ⟨"Song A", [⟨"Artist One"⟩, ⟨"Artist Two"⟩], "track-1",
   some "https://preview/a.mp3", 60, 180000⟩

/-- A track whose preview URL is null. -/
def tNoPrev : TrackObj :=
  ⟨"Song B", [⟨"Artist One"⟩], "track-2", none, 40, 90000⟩

/-- A provider on which every endpoint raises. -/
def errProvider : Provider :=
  ⟨Except.error "http status 403",
   fun _ => Except.error "http status 403",
   fun _ _ => Except.error "http status 403",
   Except.error "http status 403",
   fun _ => Except.error "http status 403",
   fun _ => Except.error "http status 403"⟩

/-- A provider with an empty catalog: every endpoint succeeds but carries
no data. -/
def emptyCatProvider : Provider :=
  ⟨Except.ok [],
   fun _ => Except.ok [],
   fun _ _ => Except.ok [],
   Except.ok none,
   fun _ => Except.ok [],
   fun _ => Except.ok aObj⟩

/-- A limited-mode client whose provider rejects every call. -/
def cErrLim : Client := ⟨AuthMode.limited, errProvider⟩

/-- A full-mode client whose provider rejects every call. -/
def cErrFull : Client := ⟨AuthMode.full, errProvider⟩

/-- A full-mode client with an empty catalog. -/
def cEmptyFull : Client := ⟨AuthMode.full, emptyCatProvider⟩

/-- A provider whose features fetch yields a vector but whose analysis
fetch raises. -/
def pVecOnly : Provider :=
  ⟨Except.ok [], fun _ => Except.ok [], fun _ _ => Except.ok [],
   Except.ok none,
   fun _ => Except.ok [some fvObj],
   fun _ => Except.error "http status 500"⟩

/-- Client over `pVecOnly`. -/
def cVecOnly : Client := ⟨AuthMode.full, pVecOnly⟩

/-- A provider whose features fetch yields a null first element and whose
analysis fetch succeeds. -/
def pAnOnly : Provider :=
  ⟨Except.ok [], fun _ => Except.ok [], fun _ _ => Except.ok [],
   Except.ok none,
   fun _ => Except.ok [none],
   fun _ => Except.ok aObj⟩

/-- Client over `pAnOnly`. -/
def cAnOnly : Client := ⟨AuthMode.full, pAnOnly⟩

/-- A provider whose search result contains a null item after a good
track. -/
def pSearchNull : Provider :=
  ⟨Except.ok [], fun _ => Except.ok [],
   fun _ _ => Except.ok [some tGood, none],
   Except.ok none,
   fun _ => Except.ok [], fun _ => Except.ok aObj⟩

/-- Client over `pSearchNull`. -/
def cSearchNull : Client := ⟨AuthMode.full, pSearchNull⟩

/-- Playlist items used by the filter witness. -/
def pitemsW : List (Option TrackObj) := [some tGood, none, some tNoPrev]

/-- Search items used by the filter witness (no null item). -/
def sitemsW : List (Option TrackObj) := [some tGood, some tNoPrev]

/-- A provider serving `pitemsW` for playlists and `sitemsW` for search. -/
def pBoth : Provider :=
  ⟨Except.ok [], fun _ => Except.ok pitemsW,
   fun _ _ => Except.ok sitemsW,
   Except.ok none,
   fun _ => Except.ok [], fun _ => Except.ok aObj⟩

/-- Client over `pBoth`. -/
def cBoth : Client := ⟨AuthMode.full, pBoth⟩

/-- A currently-playing payload with playback paused. -/
def playingPaused : PlayingObj := ⟨false, tGood, 5000⟩

/-- A provider reporting paused playback. -/
def pPaused : Provider :=
  ⟨Except.ok [], fun _ => Except.ok [], fun _ _ => Except.ok [],
   Except.ok (some playingPaused),
   fun _ => Except.ok [], fun _ => Except.ok aObj⟩

/-- Client over `pPaused`. -/
def cPaused : Client := ⟨AuthMode.full, pPaused⟩

/-- An auth provider whose full-mode verification raises the port-conflict
message and whose client-credentials verification succeeds. -/
def pFallback : AuthProvider :=
  ⟨fun _ _ _ => Except.error "OSError: Address already in use",
   fun _ _ => Except.ok ()⟩

/-- An auth provider on which both verification paths raise a message
containing the port-conflict marker. -/
def pLoop : AuthProvider :=
  ⟨fun _ _ _ => Except.error "bind failed: Address already in use",
   fun _ _ => Except.error "bind failed: Address already in use"⟩

/-- An auth provider whose full path raises the port-conflict message and
whose client-credentials path raises an unrelated message. -/
def pTermFail : AuthProvider :=
  ⟨fun _ _ _ => Except.error "OSError: Address already in use",
   fun _ _ => Except.error "invalid_client"⟩

/-- An auth provider that accepts every verification call, whatever the
credentials. -/
def pAcceptAll : AuthProvider :=
  ⟨fun _ _ _ => Except.ok (), fun _ _ => Except.ok ()⟩

theorem playlistLoop_eq_filterMap (l : List (Option TrackObj)) :
    playlistLoop l = l.filterMap keepRow := by
  induction l with
  | nil => rfl
  | cons h t ih =>
    cases h with
    | none => simpa [playlistLoop, keepRow] using ih
    | some tr =>
      by_cases hp : truthy tr.preview_url <;>
        simp [playlistLoop, keepRow, hp, ih]

theorem searchLoop_all_some (l : List (Option TrackObj))
    (h : ∀ x ∈ l, x ≠ none) :
    searchLoop l = Except.ok (l.filterMap keepRow) := by
  induction l with
  | nil => rfl
  | cons a t ih =>
    cases a with
    | none => exact absurd rfl (h none (by simp))
    | some tr =>
      have ht : ∀ x ∈ t, x ≠ none := fun x hx => h x (List.mem_cons_of_mem _ hx)
      by_cases hp : truthy tr.preview_url <;>
        simp [searchLoop, ih ht, keepRow, hp, Except.map]

theorem mem_filterMap_keep_truthy (r : TrackRow) (l : List (Option TrackObj))
    (h : r ∈ l.filterMap keepRow) : truthy r.preview_url = true := by
  rcases List.mem_filterMap.mp h with ⟨o, _, ho⟩
  cases o with
  | none => simp [keepRow] at ho
  | some t =>
    by_cases hp : truthy t.preview_url
    · simp [keepRow, hp] at ho
      rw [← ho]
      exact hp
    · simp [keepRow, hp] at ho

theorem authRun_cc_oauthAttempts (p : AuthProvider) (cid cs : String)
    (ru : Option String) :
    ∀ fuel, (authRun p cid cs ru true fuel).oauthAttempts = 0 := by
  intro fuel
  induction fuel with
  | zero => rfl
  | succ n ih =>
    cases hcc : p.ccVerify cid cs with
    | ok u => simp [authRun, hcc]
    | error e =>
      by_cases hs : strContains e addrInUseMsg <;> simp [authRun, hcc, hs, ih]

/-- Claim C6 is false as stated: in `search_tracks` a null item is not
dropped; subscripting it raises, the handler catches, and the whole call
returns the empty list, losing the preceding good track instead of
keeping it in provider order. -/
theorem C6_counterexample :
    (search_tracks (some cSearchNull) "q" 20).1 = [] ∧
    List.filterMap keepRow [some tGood, none] = [rowOfTrack tGood] ∧
    ([] : List TrackRow) ≠ [rowOfTrack tGood] := by decide

/-- Claim C6 amended: `get_playlist_tracks` drops null tracks and tracks
with an absent or empty preview URL, keeping the rest in provider order,
and `search_tracks` does the same provided no item of the search payload
is null; in both results every row has a truthy preview URL. -/
theorem C6_amended (c : Client) (pid q : String) (lim : Nat)
    (pitems sitems : List (Option TrackObj))
    (hp : c.provider.playlist_tracks pid = Except.ok pitems)
    (hs : c.provider.search q lim = Except.ok sitems)
    (hnn : ∀ x ∈ sitems, x ≠ none) :
    (get_playlist_tracks (some c) pid).1 = pitems.filterMap keepRow ∧
    (search_tracks (some c) q lim).1 = sitems.filterMap keepRow ∧
    (∀ r ∈ (get_playlist_tracks (some c) pid).1, truthy r.preview_url = true) ∧
    (∀ r ∈ (search_tracks (some c) q lim).1, truthy r.preview_url = true) := by
  have h1 : (get_playlist_tracks (some c) pid).1 = pitems.filterMap keepRow := by
    simp [get_playlist_tracks, hp, playlistLoop_eq_filterMap]
  have h2 : (search_tracks (some c) q lim).1 = sitems.filterMap keepRow := by
    simp [search_tracks, hs, searchLoop_all_some sitems hnn]
  refine ⟨h1, h2, ?_, ?_⟩
  · intro r hr
    exact mem_filterMap_keep_truthy r pitems (h1 ▸ hr)
  · intro r hr
    exact mem_filterMap_keep_truthy r sitems (h2 ▸ hr)

/-- Concrete run of the amended C6 on a playlist payload with a null item
and a preview-less track, and a search payload with no null item. -/
theorem C6_amended_witness :
    (get_playlist_tracks (some cBoth) "p").1 = pitemsW.filterMap keepRow ∧
    (search_tracks (some cBoth) "q" 20).1 = sitemsW.filterMap keepRow ∧
    (∀ r ∈ (get_playlist_tracks (some cBoth) "p").1, truthy r.preview_url = true) ∧
    (∀ r ∈ (search_tracks (some cBoth) "q" 20).1, truthy r.preview_url = true) :=
  C6_amended cBoth "p" "q" 20 pitemsW sitemsW rfl rfl (by decide)

/-- Claim C1 is false as stated: a limited-mode client lacks the
ReadPlaylists and ReadCurrentlyPlaying capabilities, yet
`get_user_playlists` and `get_currently_playing` each perform one remote
call (not zero) and return the empty sentinel instead of a capability
error. -/
theorem C1_counterexample :
    Capability.readPlaylists ∉ capabilitiesOf cErrLim.mode ∧
    Capability.readCurrentlyPlaying ∉ capabilitiesOf cErrLim.mode ∧
    (get_user_playlists (some cErrLim)).2 = 1 ∧
    (get_currently_playing (some cErrLim)).2 = 1 ∧
    (get_user_playlists (some cErrLim)).1 = [] ∧
    (get_currently_playing (some cErrLim)).1 = none := by decide

/-- Claim C1 amended: the accessor performs no capability check; once a
client is set, a limited-mode context still attempts the remote call for
the playlist and now-playing operations (exactly one remote call each),
and a provider rejection is caught and turned into the empty-list or None
sentinel rather than a CapabilityError. -/
theorem C1_amended (c : Client) (pid : String)
    (hm : c.mode = AuthMode.limited)
    (e1 e2 e3 : String)
    (h1 : c.provider.current_user_playlists = Except.error e1)
    (h2 : c.provider.playlist_tracks pid = Except.error e2)
    (h3 : c.provider.current_user_playing_track = Except.error e3) :
    Capability.readPlaylists ∉ capabilitiesOf c.mode ∧
    Capability.readCurrentlyPlaying ∉ capabilitiesOf c.mode ∧
    get_user_playlists (some c) = ([], 1) ∧
    get_playlist_tracks (some c) pid = ([], 1) ∧
    get_currently_playing (some c) = (none, 1) := by
  refine ⟨by rw [hm]; decide, by rw [hm]; decide, ?_, ?_, ?_⟩
  · simp [get_user_playlists, h1]
  · simp [get_playlist_tracks, h2]
  · simp [get_currently_playing, h3]

/-- Concrete run of the amended C1 on a limited client whose provider
rejects every call. -/
theorem C1_amended_witness :
    Capability.readPlaylists ∉ capabilitiesOf cErrLim.mode ∧
    Capability.readCurrentlyPlaying ∉ capabilitiesOf cErrLim.mode ∧
    get_user_playlists (some cErrLim) = ([], 1) ∧
    get_playlist_tracks (some cErrLim) "p" = ([], 1) ∧
    get_currently_playing (some cErrLim) = (none, 1) :=
  C1_amended cErrLim "p" rfl "http status 403" "http status 403"
    "http status 403" rfl rfl rfl

/-- Claim C2 is false as stated: with the descriptor vector available but
the analysis fetch raising, `get_track_features` returns `(None, None)`,
not the vector with an absent analysis. -/
theorem C2_counterexample :
    (get_track_features (some cVecOnly) "t").1 = FeaturesResult.pair none none ∧
    FeaturesResult.pair (some fvObj) (none : Option AnalysisObj) ≠
      FeaturesResult.pair none none ∧
    cVecOnly.provider.audio_features "t" = Except.ok [some fvObj] :=
  ⟨rfl, by decide, rfl⟩

/-- Claim C2 amended: the partial outcome exists in one direction only —
a null first element of the features list together with a successful
analysis fetch yields `(None, analysis)`, but whenever the returned pair
carries a vector it also carries an analysis, so a vector with an absent
analysis is unreachable (an analysis failure raises and the handler
returns `(None, None)`, discarding the vector). -/
theorem C2_amended (c : Client) (tid : String) :
    (∀ (a : AnalysisObj) (rest : List (Option FeaturesObj)),
      c.provider.audio_features tid = Except.ok (none :: rest) →
      c.provider.audio_analysis tid = Except.ok a →
      (get_track_features (some c) tid).1 = FeaturesResult.pair none (some a)) ∧
    (∀ (fv : FeaturesObj) (x : Option AnalysisObj),
      (get_track_features (some c) tid).1 = FeaturesResult.pair (some fv) x →
      ∃ a, x = some a) := by
  constructor
  · intro a rest hf ha
    simp [get_track_features, hf, ha]
  · intro fv x h
    cases hf : c.provider.audio_features tid with
    | error e => simp [get_track_features, hf] at h
    | ok l =>
      cases l with
      | nil => simp [get_track_features, hf] at h
      | cons f rest =>
        cases ha : c.provider.audio_analysis tid with
        | error e => simp [get_track_features, hf, ha] at h
        | ok a =>
          simp [get_track_features, hf, ha] at h
          exact ⟨a, h.2.symm⟩

/-- Concrete run of the amended C2: null vector plus successful analysis
gives the one-sided partial result. -/
theorem C2_amended_witness :
    (get_track_features (some cAnOnly) "t").1 =
      FeaturesResult.pair none (some aObj) :=
  (C2_amended cAnOnly "t").1 aObj [] rfl rfl

/-- Claim C3 is false as stated: a provider failure and an empty catalog
produce identical accessor results, so a failed call is not
distinguishable from a successful call that returns no data, and no
AccessError value exists. -/
theorem C3_counterexample :
    (get_user_playlists (some cErrFull)).1 =
      (get_user_playlists (some cEmptyFull)).1 ∧
    (get_currently_playing (some cErrFull)).1 =
      (get_currently_playing (some cEmptyFull)).1 ∧
    (get_playlist_tracks (some cErrFull) "p").1 =
      (get_playlist_tracks (some cEmptyFull) "p").1 := by decide

/-- Claim C3 amended: every remote-call failure is caught at the accessor
boundary and never escapes as an exception, but it is converted to the
same sentinel a legitimately empty response yields — empty list, None, or
the `(None, None)` pair — not to a distinct error value. -/
theorem C3_amended (c : Client) (pid q tid : String) (lim : Nat)
    (e1 e2 e3 e4 e5 : String)
    (h1 : c.provider.current_user_playlists = Except.error e1)
    (h2 : c.provider.playlist_tracks pid = Except.error e2)
    (h3 : c.provider.search q lim = Except.error e3)
    (h4 : c.provider.current_user_playing_track = Except.error e4)
    (h5 : c.provider.audio_features tid = Except.error e5) :
    (get_user_playlists (some c)).1 = [] ∧
    (get_playlist_tracks (some c) pid).1 = [] ∧
    (search_tracks (some c) q lim).1 = [] ∧
    (get_currently_playing (some c)).1 = none ∧
    (get_track_features (some c) tid).1 = FeaturesResult.pair none none := by
  refine ⟨?_, ?_, ?_, ?_, ?_⟩
  · simp [get_user_playlists, h1]
  · simp [get_playlist_tracks, h2]
  · simp [search_tracks, h3]
  · simp [get_currently_playing, h4]
  · simp [get_track_features, h5]

/-- Concrete run of the amended C3 on a client whose provider rejects
every call. -/
theorem C3_amended_witness :
    (get_user_playlists (some cErrFull)).1 = [] ∧
    (get_playlist_tracks (some cErrFull) "p").1 = [] ∧
    (search_tracks (some cErrFull) "q" 20).1 = [] ∧
    (get_currently_playing (some cErrFull)).1 = none ∧
    (get_track_features (some cErrFull) "t").1 = FeaturesResult.pair none none :=
  C3_amended cErrFull "p" "q" "t" 20 "http status 403" "http status 403"
    "http status 403" "http status 403" "http status 403" rfl rfl rfl rfl rfl

/-- Claim C8: `get_currently_playing` returns None both when the provider
reports nothing playing (null payload) and when it reports paused playback
(`is_playing` false); the two provider states map to the same result. -/
theorem C8_theorem (c : Client) :
    (c.provider.current_user_playing_track = Except.ok none →
      (get_currently_playing (some c)).1 = none) ∧
    (∀ cur, c.provider.current_user_playing_track = Except.ok (some cur) →
      cur.is_playing = false →
      (get_currently_playing (some c)).1 = none) := by
  constructor
  · intro h
    simp [get_currently_playing, h]
  · intro cur h hp
    simp [get_currently_playing, h, hp]

/-- Concrete run of C8 on a provider reporting paused playback. -/
theorem C8_witness : (get_currently_playing (some cPaused)).1 = none :=
  (C8_theorem cPaused).2 playingPaused rfl rfl

/-- Claim C9: `get_user_playlists` leaves the visualizer state unchanged,
so two successive calls with the provider serving the same catalog return
sequences equal in content and order. -/
theorem C9_theorem (v : Visualizer) :
    ((get_user_playlists_st ((get_user_playlists_st v).1)).2).1 =
      ((get_user_playlists_st v).2).1 ∧
    (get_user_playlists_st v).1 = v :=
  ⟨rfl, rfl⟩

/-- Claim C10: with no client set, every accessor returns its sentinel
with zero remote calls; `get_track_features` returns the single None, a
value distinct from every pair, on which tuple unpacking fails, while with
a client set the result always unpacks into two values. -/
theorem C10_theorem :
    get_user_playlists none = ([], 0) ∧
    (∀ pid, get_playlist_tracks none pid = ([], 0)) ∧
    (∀ q lim, search_tracks none q lim = ([], 0)) ∧
    get_currently_playing none = (none, 0) ∧
    (∀ tid, get_track_features none tid = (FeaturesResult.noClient, 0)) ∧
    (∀ f a, FeaturesResult.noClient ≠ FeaturesResult.pair f a) ∧
    unpack2 FeaturesResult.noClient = none ∧
    (∀ c tid, ∃ pr, unpack2 (get_track_features (some c) tid).1 = some pr) := by
  refine ⟨rfl, fun _ => rfl, fun _ _ => rfl, rfl, fun _ => rfl, ?_, rfl, ?_⟩
  · intro f a h
    exact FeaturesResult.noConfusion h
  · intro c tid
    cases hf : c.provider.audio_features tid with
    | error e => exact ⟨(none, none), by simp [get_track_features, hf, unpack2]⟩
    | ok l =>
      cases l with
      | nil => exact ⟨(none, none), by simp [get_track_features, hf, unpack2]⟩
      | cons f rest =>
        cases ha : c.provider.audio_analysis tid with
        | error e =>
          exact ⟨(none, none), by simp [get_track_features, hf, ha, unpack2]⟩
        | ok a =>
          exact ⟨(f, some a), by simp [get_track_features, hf, ha, unpack2]⟩

/-- Claim C4: when the full-mode verification raises a message containing
"Address already in use" and the client-credentials verification succeeds,
`authenticate` falls back once and succeeds in limited mode; the fallback
runs no further OAuth attempt (the one OAuth attempt counted is the
original failing one), so the end user is not prompted again. -/
theorem C4_theorem (p : AuthProvider) (cid cs : String) (ru : Option String)
    (fuel : Nat) (e : String)
    (hf : p.fullVerify cid cs ru = Except.error e)
    (he : strContains e addrInUseMsg = true)
    (hc : p.ccVerify cid cs = Except.ok ()) :
    authRun p cid cs ru false (fuel + 2) =
      ⟨AuthOutcome.success AuthMode.limited, 1, 1⟩ := by
  simp [authRun, hf, he, hc]

/-- Concrete run of C4: port conflict on the full path, accepting
client-credentials path. -/
theorem C4_witness :
    authRun pFallback "id" "secret" none false 2 =
      ⟨AuthOutcome.success AuthMode.limited, 1, 1⟩ :=
  C4_theorem pFallback "id" "secret" none 0 "OSError: Address already in use"
    rfl (by decide) rfl

/-- Claim C5 is false as stated: on a provider whose client-credentials
verification also raises a message containing "Address already in use",
`authenticate` re-enters the fallback unboundedly — within a recursion
budget of 5 it has already run the fallback four times without
terminating. -/
theorem C5_counterexample :
    (authRun pLoop "id" "secret" none false 5).ccAttempts = 4 ∧
    (authRun pLoop "id" "secret" none false 5).outcome = AuthOutcome.fuelOut := by
  decide

/-- Claim C5 amended: provided no failure message of the
client-credentials verification contains "Address already in use", one
`authenticate` call performs at most one fallback attempt and terminates
with a surfaced success or failure. -/
theorem C5_amended (p : AuthProvider) (cid cs : String) (ru : Option String)
    (ucc : Bool) (fuel : Nat)
    (hcc : ∀ e, p.ccVerify cid cs = Except.error e →
      strContains e addrInUseMsg = false) :
    (authRun p cid cs ru ucc (fuel + 2)).ccAttempts ≤ 1 ∧
    (authRun p cid cs ru ucc (fuel + 2)).outcome ≠ AuthOutcome.fuelOut := by
  have hcase : ∀ n, (authRun p cid cs ru true (n + 1)).ccAttempts ≤ 1 ∧
      (authRun p cid cs ru true (n + 1)).outcome ≠ AuthOutcome.fuelOut := by
    intro n
    cases h : p.ccVerify cid cs with
    | ok u => simp [authRun, h]
    | error e => simp [authRun, h, hcc e h]
  cases ucc with
  | true => exact hcase (fuel + 1)
  | false =>
    cases h : p.fullVerify cid cs ru with
    | ok u => simp [authRun, h]
    | error e =>
      by_cases hs : strContains e addrInUseMsg
      · have h1 := hcase fuel
        simpa [authRun, h, hs] using h1
      · simp [authRun, h, hs]

/-- Concrete run of the amended C5: port conflict on the full path, the
fallback fails with an unrelated message, so the call ends after exactly
one fallback. -/
theorem C5_amended_witness :
    (authRun pTermFail "id" "secret" none false 2).ccAttempts ≤ 1 ∧
    (authRun pTermFail "id" "secret" none false 2).outcome ≠
      AuthOutcome.fuelOut :=
  C5_amended pTermFail "id" "secret" none false 0 (by
    intro e he
    have he2 : (Except.error "invalid_client" : Except String Unit) =
        Except.error e := he
    injection he2 with h2
    rw [← h2]
    decide)

/-- Claim C7 is false as stated: `authenticate` performs no emptiness
check on the credentials — called with both empty against a provider that
accepts them, it attempts the exchange (one OAuth verification) and
returns success rather than a MissingCredentials failure. -/
theorem C7_counterexample :
    authRun pAcceptAll "" "" none false 1 =
      ⟨AuthOutcome.success AuthMode.full, 1, 0⟩ := by decide

/-- Claim C7 amended: the emptiness check lives in the caller, not the
authenticator — the Connect handler in `main` refuses to invoke
`authenticate` when either credential is empty and shows an error, while
`authenticate` itself always attempts the provider flow (one OAuth
verification) whatever the credentials. -/
theorem C7_amended (cid cs : String) (p : AuthProvider) (ru : Option String)
    (n : Nat) (h : cid = "" ∨ cs = "") :
    connectHandler cid cs = ConnectAction.showFillInError ∧
    (authRun p cid cs ru false (n + 1)).oauthAttempts = 1 := by
  constructor
  · rcases h with h | h <;> subst h <;> simp [connectHandler]
  · cases hf : p.fullVerify cid cs ru with
    | ok u => simp [authRun, hf]
    | error e =>
      by_cases hs : strContains e addrInUseMsg <;>
        simp [authRun, hf, hs, authRun_cc_oauthAttempts]

/-- Concrete run of the amended C7 with an empty client id. -/
theorem C7_amended_witness :
    connectHandler "" "secret" = ConnectAction.showFillInError ∧
    (authRun pAcceptAll "" "secret" none false 1).oauthAttempts = 1 :=
  C7_amended "" "secret" pAcceptAll none 0 (Or.inl rfl)
